import Mathlib

/-!
Verification of the wire-game core (iraira-web-app): a shallow embedding of
`Character.js`, `CollisionDetector.js`, `LevelGenerator.js` and `GameManager.js`
into Lean 4, with theorems settling the specification claims.

Modelling conventions:
* JS numbers are modelled as rationals (`ℚ`); every operation performed by the
  game code on the inputs considered here is exact field arithmetic, except
  `Math.sqrt`, which is passed in as an explicit parameter `msqrt : ℚ → ℚ`
  (dependency injection).  Concrete runs instantiate it with `ratSqrt`, which
  agrees with the real square root on every argument arising in those runs
  (they are all squares of rationals, by construction of the random streams).
* `Math.random` is modelled as an injected stream `rng : ℕ → ℚ` together with
  an index that advances by one per call, in exactly the order the JS source
  makes the calls.
* JS `null` / optional arguments become `Option`; a constructor that `throw`s
  becomes a function into `Except String _`.
* Mutation becomes explicit state passing; an object that the source mutates in
  place is returned updated.
-/

set_option maxRecDepth 100000

namespace WireGame

/-- A 2-D point in canvas space, as produced by the level generator. -/
structure Point where
  x : ℚ
  y : ℚ
deriving DecidableEq, Repr

/-- An axis-aligned rectangle as used for walls, bounds and the goal hit box. -/
structure Rect where
  x : ℚ
  y : ℚ
  width : ℚ
  height : ℚ
deriving DecidableEq, Repr

/-- One row of the difficulty table of `LevelGenerator.js` (lines 18-23). -/
structure DifficultySetting where
  pathWidth : ℚ
  characterSpeed : ℚ
deriving DecidableEq, Repr

/-! ### Character.js -/

/-- The player character: position, size, heading and the stored initial
position, exactly the fields of the `Character` constructor. -/
structure Character where
  x : ℚ
  y : ℚ
  size : ℚ
  direction : Option String
  initialX : ℚ
  initialY : ℚ
deriving DecidableEq, Repr

/-- The `Character` constructor: position, size, no direction, and the initial
position remembered for `reset`. -/
def Character.init (x y size : ℚ) : Character :=
  { x := x, y := y, size := size, direction := none, initialX := x, initialY := y }

/-- The valid direction strings accepted by `Character.setDirection`. -/
def validDirections : List String := ["up", "down", "left", "right"]

/-- `Character.setDirection`: a direction in the valid set is stored, anything
else is silently ignored. -/
def Character.setDirection (c : Character) (direction : String) : Character :=
  if direction ∈ validDirections then { c with direction := some direction } else c

/-- `Character.update(speed)`: no direction means no movement, otherwise move
by `speed` along the axis of the current direction (the JS `switch`; a string
outside the four cases falls through without moving). -/
def Character.update (c : Character) (speed : ℚ) : Character :=
  match c.direction with
  | none => c
  | some d =>
    if d = "up" then { c with y := c.y - speed }
    else if d = "down" then { c with y := c.y + speed }
    else if d = "left" then { c with x := c.x - speed }
    else if d = "right" then { c with x := c.x + speed }
    else c

/-- `Character.getBounds`: the axis-aligned square anchored at the position. -/
def Character.getBounds (c : Character) : Rect :=
  { x := c.x, y := c.y, width := c.size, height := c.size }

/-- `Character.reset(x, y)`: with both coordinates given (`some p`) the
position AND the stored initial position become `p`; with no coordinates
(`none`) the position returns to the stored initial position.  Both branches
clear the direction. -/
def Character.reset (c : Character) (p : Option Point) : Character :=
  match p with
  | some q =>
      { c with x := q.x, y := q.y, initialX := q.x, initialY := q.y, direction := none }
  | none =>
      { c with x := c.initialX, y := c.initialY, direction := none }

/-! ### CollisionDetector.js -/

/-- The collision detector state: the wall list, the goal point, the fixed
goal hit-box size (30) and the remembered last collision point.  The JS object
also holds a reference to the character; here the character is passed to the
check functions instead. -/
structure CollisionDetector where
  walls : List Rect
  goal : Point
  goalSize : ℚ
  lastCollisionPoint : Option Point
deriving DecidableEq, Repr

/-- `CollisionDetector.boundingBoxCollision`: strict axis-aligned overlap. -/
def boundingBoxCollision (rect1 rect2 : Rect) : Bool :=
  decide (rect1.x < rect2.x + rect2.width) &&
  decide (rect1.x + rect1.width > rect2.x) &&
  decide (rect1.y < rect2.y + rect2.height) &&
  decide (rect1.y + rect1.height > rect2.y)

/-- The wall loop of `checkWallCollision`: the first wall overlapping the
given bounds wins and yields the collision point (the centre of the bounds). -/
def wallScan (bounds : Rect) : List Rect → Option Point
  | [] => none
  | wall :: rest =>
      if boundingBoxCollision bounds wall then
        some { x := bounds.x + bounds.width / 2, y := bounds.y + bounds.height / 2 }
      else wallScan bounds rest

/-- `CollisionDetector.checkWallCollision`: returns the updated detector (the
last collision point is recorded on a hit, left unchanged otherwise) and the
boolean result. -/
def CollisionDetector.checkWallCollision (cd : CollisionDetector) (c : Character) :
    CollisionDetector × Bool :=
  match wallScan c.getBounds cd.walls with
  | some p => ({ cd with lastCollisionPoint := some p }, true)
  | none => (cd, false)

/-- `CollisionDetector.checkGoalCollision`: bounding-box overlap with the
square of side `goalSize` centred on the goal point. -/
def CollisionDetector.checkGoalCollision (cd : CollisionDetector) (c : Character) : Bool :=
  boundingBoxCollision c.getBounds
    { x := cd.goal.x - cd.goalSize / 2, y := cd.goal.y - cd.goalSize / 2,
      width := cd.goalSize, height := cd.goalSize }

/-! ### LevelGenerator.js -/

/-- A random source standing for `Math.random`: call number `n` (counted from
the start of a session, in source order) returns `rng n`.  Real streams take
values in `[0, 1)`. -/
def Rng : Type := ℕ → ℚ

/-- Fuel-bounded integer square root (binary recursion on `n / 4`), written
structurally so that it reduces by plain unfolding: for `n < 4 ^ fuel` it
returns the integer square root of `n`. -/
def isqrtFuel : ℕ → ℕ → ℕ
  | 0, _ => 0
  | fuel + 1, n =>
      if n = 0 then 0
      else
        let r := 2 * isqrtFuel fuel (n / 4)
        if (r + 1) * (r + 1) ≤ n then r + 1 else r

/-- Integer square root with enough fuel for any number below `4 ^ 64`. -/
def isqrt (n : ℕ) : ℕ := isqrtFuel 64 n

/-- An exact stand-in for `Math.sqrt` on rationals: it returns the exact
square root whenever the argument is the square of a rational (which is the
case for every argument arising in the concrete runs below, by construction of
their random streams) and `0` otherwise.  Theorems quantified over the square
root take it as an arbitrary parameter `msqrt` instead. -/
def ratSqrt (q : ℚ) : ℚ :=
  if 0 ≤ q ∧ isqrt q.num.toNat * isqrt q.num.toNat = q.num.toNat
        ∧ isqrt q.den * isqrt q.den = q.den then
    (isqrt q.num.toNat : ℚ) / (isqrt q.den : ℚ)
  else 0

/-- The state of a `LevelGenerator`: canvas size, difficulty, resolved
settings, and the generated level data (`walls`, `path`, `startPosition`,
`goalPosition`, `waypoints`), exactly the fields set by the constructor. -/
structure LevelGenerator where
  width : ℚ
  height : ℚ
  difficulty : String
  settings : DifficultySetting
  walls : List Rect
  path : List Point
  startPosition : Option Point
  goalPosition : Option Point
  waypoints : List Point
deriving DecidableEq, Repr

/-- The OWN properties of the difficulty-table object literal of the
`LevelGenerator` constructor: its four data rows.  The JS bracket lookup
`this.difficultySettings[difficulty]` additionally consults the prototype
chain — see `objectPrototypeKeys` and `levelGeneratorCtor` below. -/
def difficultySettings (difficulty : String) : Option DifficultySetting :=
  if difficulty = "easy" then some { pathWidth := 100, characterSpeed := 2 }
  else if difficulty = "medium" then some { pathWidth := 60, characterSpeed := 3 }
  else if difficulty = "hard" then some { pathWidth := 40, characterSpeed := 4 }
  else if difficulty = "super-hard" then some { pathWidth := 30, characterSpeed := 6 }
  else none

/-- The property names every plain JS object literal inherits from
`Object.prototype`.  Bracket lookup on the difficulty table returns the
inherited member for each of these — a function (or, for `__proto__`, an
object), in every case a TRUTHY value, so the constructor's
`!this.difficultySettings[difficulty]` rejection test passes for them. -/
def objectPrototypeKeys : List String :=
  ["constructor", "hasOwnProperty", "isPrototypeOf", "propertyIsEnumerable",
   "toLocaleString", "toString", "valueOf", "__proto__",
   "__defineGetter__", "__defineSetter__", "__lookupGetter__", "__lookupSetter__"]

/-- The JS truthiness of `this.difficultySettings[difficulty]`, prototype
chain included: own data rows and inherited `Object.prototype` members are
truthy; any other key reads `undefined`, which is falsy. -/
def difficultyLookupTruthy (difficulty : String) : Bool :=
  (difficultySettings difficulty).isSome || decide (difficulty ∈ objectPrototypeKeys)

/-- The possible outcomes of the `LevelGenerator` constructor's validation
(LevelGenerator.js lines 26-30). -/
inductive CtorOutcome where
  | throws
  | validRow (s : DifficultySetting)
  | inheritedSettings
deriving DecidableEq, Repr

/-- The faithful model of the `LevelGenerator` constructor's validate-and-store
step: one of the four tags resolves to its data row; a key inherited from
`Object.prototype` passes the truthiness check WITHOUT throwing, so the
constructor completes and stores the inherited function/object as
`this.settings` (a degenerate generator whose `pathWidth`/`characterSpeed`
reads give `undefined`); any other string throws `Invalid difficulty`. -/
def levelGeneratorCtor (difficulty : String) : CtorOutcome :=
  match difficultySettings difficulty with
  | some s => .validRow s
  | none =>
      if difficulty ∈ objectPrototypeKeys then .inheritedSettings else .throws

/-- The numeric session model of the `LevelGenerator` constructor: an
unrecognized difficulty throws (modelled as `Except.error` carrying the JS
message), otherwise the resolved settings row is stored and the level data
starts empty.  This numeric model covers the difficulty strings whose lookup
yields an own data row or `undefined`; the `Object.prototype` member names,
for which the real constructor completes with a NON-row `settings` value and
`undefined`/NaN numerics (outside a rational model), are modelled by
`levelGeneratorCtor` and settled in the C4 theorems. -/
def mkLevelGenerator (width height : ℚ) (difficulty : String) :
    Except String LevelGenerator :=
  match difficultySettings difficulty with
  | none => .error ("Invalid difficulty: " ++ difficulty)
  | some s =>
      .ok { width := width, height := height, difficulty := difficulty, settings := s,
            walls := [], path := [], startPosition := none, goalPosition := none,
            waypoints := [] }

/-- `LevelGenerator.generateWaypoints`: the start waypoint at `(50, height/2)`,
`3 + floor(rand()*3)` interior waypoints spread over `segmentWidth` intervals
with `±25` horizontal jitter and random `y` in the `[100, height-100]` band,
and the goal waypoint at `x = width - 50`.  Returns the waypoints and the next
random-call index (one call for the count, two per interior waypoint, one for
the goal `y`). -/
def generateWaypoints (rng : Rng) (idx : ℕ) (width height : ℚ) : List Point × ℕ :=
  let nZ : ℤ := 3 + ⌊rng idx * 3⌋
  let n : ℕ := nZ.toNat
  let segmentWidth : ℚ := (width - 150) / ((nZ : ℚ) + 1)
  let interior : List Point := (List.range n).map (fun k =>
    let i : ℕ := k + 1
    { x := 50 + segmentWidth * (i : ℚ) + (rng (idx + 2 * i - 1) - 1 / 2) * 50,
      y := 100 + rng (idx + 2 * i) * (height - 200) })
  let goalY : ℚ := 100 + rng (idx + 2 * n + 1) * (height - 200)
  ({ x := 50, y := height / 2 } :: interior ++ [{ x := width - 50, y := goalY }],
   idx + 2 * n + 2)

/-- One segment of `LevelGenerator.generatePath`: `floor(dist/5) + 1` samples
(the JS loop `t = 0 .. steps` inclusive; no samples when `steps` is negative),
each a quadratic Bezier value at `t/steps` through a midpoint re-jittered by
`±15` per sample (two random calls per sample, `midX` first). -/
def sampleSeg (rng : Rng) (msqrt : ℚ → ℚ) (idx : ℕ) (s e : Point) : List Point × ℕ :=
  let steps : ℤ :=
    ⌊msqrt ((e.x - s.x) ^ 2 + (e.y - s.y) ^ 2) / 5⌋
  let cnt : ℕ := (steps + 1).toNat
  ((List.range cnt).map (fun (t : ℕ) =>
      let tau : ℚ := (t : ℚ) / (steps : ℚ)
      let midX : ℚ := (s.x + e.x) / 2 + (rng (idx + 2 * t) - 1 / 2) * 30
      let midY : ℚ := (s.y + e.y) / 2 + (rng (idx + 2 * t + 1) - 1 / 2) * 30
      { x := (1 - tau) ^ 2 * s.x + 2 * (1 - tau) * tau * midX + tau ^ 2 * e.x,
        y := (1 - tau) ^ 2 * s.y + 2 * (1 - tau) * tau * midY + tau ^ 2 * e.y }),
   idx + 2 * cnt)

/-- The segment loop of `LevelGenerator.generatePath`: one sampled sub-path per
consecutive waypoint pair, concatenated, threading the random-call index. -/
def generatePathAux (rng : Rng) (msqrt : ℚ → ℚ) : List Point → ℕ → List Point × ℕ
  | s :: e :: rest, idx =>
      let pr := sampleSeg rng msqrt idx s e
      let qr := generatePathAux rng msqrt (e :: rest) pr.2
      (pr.1 ++ qr.1, qr.2)
  | _, idx => ([], idx)

/-- `LevelGenerator.generatePath` applied to the generated waypoints. -/
def generatePath (rng : Rng) (msqrt : ℚ → ℚ) (waypoints : List Point) (idx : ℕ) :
    List Point × ℕ :=
  generatePathAux rng msqrt waypoints idx

/-- The wall pair one iteration of the `generateWalls` loop produces: for a
consecutive path-point pair with positive distance, two 20x20 squares offset
perpendicular to the local direction at `halfWidth + 10` from the first point
(left wall pushed first, then right). -/
def pathWallPair (msqrt : ℚ → ℚ) (halfWidth : ℚ) (current next : Point) : List Rect :=
  let dx : ℚ := next.x - current.x
  let dy : ℚ := next.y - current.y
  let length : ℚ := msqrt (dx * dx + dy * dy)
  if length > 0 then
    let perpX : ℚ := -dy / length
    let perpY : ℚ := dx / length
    let wallThickness : ℚ := 20
    let leftWallX : ℚ := current.x + perpX * (halfWidth + wallThickness / 2)
    let leftWallY : ℚ := current.y + perpY * (halfWidth + wallThickness / 2)
    let rightWallX : ℚ := current.x - perpX * (halfWidth + wallThickness / 2)
    let rightWallY : ℚ := current.y - perpY * (halfWidth + wallThickness / 2)
    [{ x := leftWallX - wallThickness / 2, y := leftWallY - wallThickness / 2,
       width := wallThickness, height := wallThickness },
     { x := rightWallX - wallThickness / 2, y := rightWallY - wallThickness / 2,
       width := wallThickness, height := wallThickness }]
  else []

/-- The path loop of `LevelGenerator.generateWalls` over consecutive pairs. -/
def pathWalls (msqrt : ℚ → ℚ) (halfWidth : ℚ) : List Point → List Rect
  | current :: next :: rest =>
      pathWallPair msqrt halfWidth current next ++ pathWalls msqrt halfWidth (next :: rest)
  | _ => []

/-- The four canvas-edge boundary rectangles pushed at the end of
`generateWalls` (thickness 50): top, bottom, left, right. -/
def boundaryWalls (width height : ℚ) : List Rect :=
  [{ x := 0, y := 0, width := width, height := 50 },
   { x := 0, y := height - 50, width := width, height := 50 },
   { x := 0, y := 0, width := 50, height := height },
   { x := width - 50, y := 0, width := 50, height := height }]

/-- `LevelGenerator.generateWalls`: the path-offset walls followed by the four
canvas boundary walls. -/
def generateWalls (msqrt : ℚ → ℚ) (path : List Point) (pathWidth width height : ℚ) :
    List Rect :=
  pathWalls msqrt (pathWidth / 2) path ++ boundaryWalls width height

/-- `LevelGenerator.setStartAndGoalPositions`: with at least two waypoints the
start/goal positions are copies of the first/last waypoint. -/
def setStartAndGoalPositions (lg : LevelGenerator) : LevelGenerator :=
  if 2 ≤ lg.waypoints.length then
    { lg with startPosition := lg.waypoints.head?, goalPosition := lg.waypoints.getLast? }
  else lg

/-- `LevelGenerator.generate`: waypoints, path, walls, then start/goal
positions, threading the random-call index. -/
def LevelGenerator.generate (lg : LevelGenerator) (rng : Rng) (msqrt : ℚ → ℚ)
    (idx : ℕ) : LevelGenerator × ℕ :=
  let wr := generateWaypoints rng idx lg.width lg.height
  let pr := generatePath rng msqrt wr.1 wr.2
  let walls := generateWalls msqrt pr.1 lg.settings.pathWidth lg.width lg.height
  (setStartAndGoalPositions
     { lg with waypoints := wr.1, path := pr.1, walls := walls }, pr.2)

/-- `LevelGenerator.getPathWidth`. -/
def LevelGenerator.getPathWidth (lg : LevelGenerator) : ℚ := lg.settings.pathWidth

/-- `LevelGenerator.getCharacterSpeed`. -/
def LevelGenerator.getCharacterSpeed (lg : LevelGenerator) : ℚ := lg.settings.characterSpeed

/-! ### GameManager.js

The browser-environment component wiring is modelled: the renderer and the
animation engine are pure presentation and are reduced to the one bit the
state machine reads from them (`animationEngine.isPlaying()`, the `animating`
field); the input handler is reduced to its `enabled` flag.  `Date.now()` is
an explicit `now` parameter on the operations that read it, and the
random-call index of the session is threaded through the `rngIdx` field. -/

/-- The game states, the closed set of string tags the source assigns. -/
inductive GState where
  | menu
  | playing
  | paused
  | gameover
  | victory
deriving DecidableEq, Repr

/-- The `GameManager` state: canvas size, difficulty, state tag, the three
timer fields, the owned components and the random-call index. -/
structure GameManager where
  width : ℚ
  height : ℚ
  difficulty : String
  state : GState
  startTime : ℚ
  currentTime : ℚ
  score : ℚ
  levelGenerator : LevelGenerator
  character : Character
  collisionDetector : CollisionDetector
  inputEnabled : Bool
  animating : Bool
  rngIdx : ℕ
deriving DecidableEq, Repr

/-- The `GameManager` constructor (browser path): build the level generator
(propagating its difficulty error), run `generate()`, create the character of
size 10 at the level's start position, and the collision detector over the
level's walls and goal (goal hit-box size 30).  State starts at `menu`, timers
and score at 0, input disabled, no animation. -/
def mkGameManager (rng : Rng) (msqrt : ℚ → ℚ) (width height : ℚ)
    (difficulty : String) : Except String GameManager :=
  match mkLevelGenerator width height difficulty with
  | .error e => .error e
  | .ok lg0 =>
      let gr := lg0.generate rng msqrt 0
      let lg := gr.1
      let startPos := lg.startPosition.getD { x := 0, y := 0 }
      .ok { width := width, height := height, difficulty := difficulty,
            state := .menu, startTime := 0, currentTime := 0, score := 0,
            levelGenerator := lg,
            character := Character.init startPos.x startPos.y 10,
            collisionDetector :=
              { walls := lg.walls, goal := lg.goalPosition.getD { x := 0, y := 0 },
                goalSize := 30, lastCollisionPoint := none },
            inputEnabled := false, animating := false, rngIdx := gr.2 }

/-- `GameManager.startGame`: state to `playing`, timer re-based at `now`,
`currentTime` and `score` zeroed, character reset to the current level's start
position (the level itself is not touched), input enabled. -/
def GameManager.startGame (gm : GameManager) (now : ℚ) : GameManager :=
  let c := match gm.levelGenerator.startPosition with
    | some p => gm.character.reset (some p)
    | none => gm.character
  { gm with state := .playing, startTime := now, currentTime := 0, score := 0,
            character := c, inputEnabled := true }

/-- `GameManager.restartGame`: input disabled, animation stopped, the level
REGENERATED (a fresh random level), character reset to the new start position,
collision detector rebuilt over the new walls and goal with its last collision
point cleared, state back to `menu`, timers and score zeroed. -/
def GameManager.restartGame (gm : GameManager) (rng : Rng) (msqrt : ℚ → ℚ) :
    GameManager :=
  let gr := gm.levelGenerator.generate rng msqrt gm.rngIdx
  let lg := gr.1
  let c := match lg.startPosition with
    | some p => gm.character.reset (some p)
    | none => gm.character
  { gm with levelGenerator := lg, character := c,
            collisionDetector :=
              { walls := lg.walls, goal := lg.goalPosition.getD { x := 0, y := 0 },
                goalSize := gm.collisionDetector.goalSize, lastCollisionPoint := none },
            state := .menu, startTime := 0, currentTime := 0, score := 0,
            inputEnabled := false, animating := false, rngIdx := gr.2 }

/-- `GameManager.handleGameOver`: state to `gameover`, input disabled, and the
explosion animation started when a collision point is recorded.  Note that the
`score` field is NOT written here (contrast `handleGoalReached`). -/
def GameManager.handleGameOver (gm : GameManager) : GameManager :=
  { gm with state := .gameover, inputEnabled := false,
            animating := gm.collisionDetector.lastCollisionPoint.isSome || gm.animating }

/-- `GameManager.handleGoalReached`: state to `victory`, the completion time
recorded as the score, input disabled, victory animation started. -/
def GameManager.handleGoalReached (gm : GameManager) : GameManager :=
  { gm with state := .victory, score := gm.currentTime, inputEnabled := false,
            animating := true }

/-- `GameManager.update(deltaTime)`: an early return when not `playing`;
otherwise the timer is recomputed from `now`, then — unless an animation is
mid-flight — the character advances at the level's speed, the wall collision
is tested first (recording the collision point and ending in `gameover`), and
only if it misses is the goal tested (ending in `victory`). -/
def GameManager.update (gm : GameManager) (now deltaTime : ℚ) : GameManager :=
  if gm.state ≠ .playing then gm
  else
    let gm1 := { gm with currentTime := now - gm.startTime }
    if gm1.animating then gm1
    else
      let speed := gm1.levelGenerator.getCharacterSpeed
      let c := gm1.character.update speed
      let wr := gm1.collisionDetector.checkWallCollision c
      let gm2 := { gm1 with character := c, collisionDetector := wr.1 }
      if wr.2 then gm2.handleGameOver
      else if gm2.collisionDetector.checkGoalCollision c then gm2.handleGoalReached
      else gm2

/-- `GameManager.getCurrentState`. -/
def GameManager.getCurrentState (gm : GameManager) : GState := gm.state

/-- `GameManager.getCurrentScore`: the live timer while playing, the recorded
`score` field in every other state. -/
def GameManager.getCurrentScore (gm : GameManager) : ℚ :=
  if gm.state = .playing then gm.currentTime else gm.score

/-- A sequence of frame-loop calls: `applyTicks [(now1, d1), ...] gm` runs
`update` once per list entry. -/
def applyTicks : List (ℚ × ℚ) → GameManager → GameManager
  | [], gm => gm
  | (now, d) :: rest, gm => applyTicks rest (gm.update now d)

/-! ### Concrete instances used by counterexamples and witnesses -/

/-- A concrete random stream (values in `[0, 1)`).  It is designed so that a
session built from it on an 800x600 canvas has every segment distance and
every consecutive path-point distance equal to the square of a rational (each
segment direction is a Pythagorean-triple multiple and each midpoint jitter is
zero), so `ratSqrt` returns exactly the value `Math.sqrt` returns on the same
run: calls 0-7 produce waypoints `(50,300), (194,492), (374,252), (534,372),
(750,210)` with segment lengths 240, 300, 200, 270; calls 8-419 (value `1/2`)
make every sampled sub-path an exactly, uniformly sampled straight line; call
420 is the first call of a regenerated level. -/
def exampleRng : Rng := fun n =>
  if n = 0 then 0
  else if n = 1 then 13 / 100
  else if n = 2 then 49 / 50
  else if n = 3 then 12 / 25
  else if n = 4 then 19 / 50
  else if n = 5 then 43 / 100
  else if n = 6 then 17 / 25
  else if n = 7 then 11 / 40
  else if n = 420 then 5 / 6
  else 1 / 2

/-- A concrete random stream for a 100x600 canvas, again making every segment
a Pythagorean-triple multiple (waypoints `(50,300), (20,340), (20,100),
(20,400), (50,360)`, segment lengths 50, 240, 300, 50) so that `ratSqrt`
agrees with `Math.sqrt` throughout the run. -/
def rngC8 : Rng := fun n =>
  if n = 0 then 0
  else if n = 1 then 3 / 20
  else if n = 2 then 3 / 5
  else if n = 3 then 2 / 5
  else if n = 4 then 0
  else if n = 5 then 13 / 20
  else if n = 6 then 3 / 4
  else if n = 7 then 13 / 20
  else 1 / 2

/-- The constant random stream returning `1/2`, a generic in-range outcome
used to instantiate universally quantified theorems. -/
def halfRng : Rng := fun _ => 1 / 2

/-- A point lies within the canvas rectangle spanned by the origin and
`(width, height)`. -/
def pointInBoundsB (width height : ℚ) (p : Point) : Bool :=
  decide (0 ≤ p.x) && decide (p.x ≤ width) && decide (0 ≤ p.y) && decide (p.y ≤ height)

/-- A rectangle lies entirely within the canvas. -/
def rectInBoundsB (width height : ℚ) (r : Rect) : Bool :=
  decide (0 ≤ r.x) && decide (r.x + r.width ≤ width) &&
  decide (0 ≤ r.y) && decide (r.y + r.height ≤ height)

/-- A small concrete level used by witnesses: the standard canvas, easy
settings, the four boundary walls as wall list, start on the left, goal on
the right. -/
def lgExample : LevelGenerator :=
  { width := 800, height := 600, difficulty := "easy",
    settings := { pathWidth := 100, characterSpeed := 2 },
    walls := boundaryWalls 800 600,
    path := [{ x := 50, y := 300 }, { x := 750, y := 300 }],
    startPosition := some { x := 70, y := 300 },
    goalPosition := some { x := 750, y := 300 },
    waypoints := [{ x := 70, y := 300 }, { x := 750, y := 300 }] }

/-- A session in mid-play on `lgExample`: the character sits at `(51, 300)`
heading left, so the next frame moves it to `(49, 300)`, into the left
boundary wall. -/
def gmWallHit : GameManager :=
  { width := 800, height := 600, difficulty := "easy",
    state := .playing, startTime := 0, currentTime := 4900, score := 0,
    levelGenerator := lgExample,
    character :=
      { x := 51, y := 300, size := 10, direction := some ("left"),
        initialX := 70, initialY := 300 },
    collisionDetector :=
      { walls := boundaryWalls 800 600, goal := { x := 750, y := 300 },
        goalSize := 30, lastCollisionPoint := none },
    inputEnabled := true, animating := false, rngIdx := 420 }

/-- A session in mid-play whose character overlaps both a wall and the goal
hit box after the next move: the goal sits at `(55, 300)` so its hit box is
`[40,70]x[285,315]`, and the stationary character at `(45, 300)` overlaps it
and the left boundary wall simultaneously. -/
def gmBothHit : GameManager :=
  { width := 800, height := 600, difficulty := "easy",
    state := .playing, startTime := 0, currentTime := 100, score := 0,
    levelGenerator := lgExample,
    character :=
      { x := 45, y := 300, size := 10, direction := none,
        initialX := 70, initialY := 300 },
    collisionDetector :=
      { walls := boundaryWalls 800 600, goal := { x := 55, y := 300 },
        goalSize := 30, lastCollisionPoint := none },
    inputEnabled := true, animating := false, rngIdx := 420 }

/-- A finished session sitting in the `menu` state, used as a witness input. -/
def gmMenu : GameManager :=
  { gmWallHit with state := .menu, currentTime := 0 }

/-! ### Shared helper lemmas -/

/-- While not playing, one `update` call is the identity (the early return at
the top of `GameManager.update`). -/
theorem update_of_ne_playing (gm : GameManager) (now deltaTime : ℚ)
    (h : gm.state ≠ .playing) : gm.update now deltaTime = gm := by
  unfold GameManager.update
  rw [if_pos h]

/-- While not playing, any sequence of `update` calls is the identity. -/
theorem applyTicks_of_ne_playing (gm : GameManager) (l : List (ℚ × ℚ))
    (h : gm.state ≠ .playing) : applyTicks l gm = gm := by
  induction l with
  | nil => rfl
  | cons p rest ih =>
      obtain ⟨now, d⟩ := p
      unfold applyTicks
      rw [update_of_ne_playing gm now d h, ih]

/-- The strict-overlap test, spelled out: `boundingBoxCollision` holds exactly
when all four strict inequalities hold. -/
theorem boundingBoxCollision_iff (rect1 rect2 : Rect) :
    boundingBoxCollision rect1 rect2 = true ↔
      (rect1.x < rect2.x + rect2.width ∧ rect2.x < rect1.x + rect1.width ∧
       rect1.y < rect2.y + rect2.height ∧ rect2.y < rect1.y + rect1.height) := by
  simp [boundingBoxCollision, and_assoc, gt_iff_lt]

/-- If some wall in the list strictly overlaps the given bounds then the wall
scan reports a hit. -/
theorem wallScan_isSome_of_overlap (bounds : Rect) (walls : List Rect)
    (h : ∃ w ∈ walls, boundingBoxCollision bounds w = true) :
    ∃ p, wallScan bounds walls = some p := by
  induction walls with
  | nil => simp at h
  | cons w rest ih =>
      by_cases hw : boundingBoxCollision bounds w = true
      · exact ⟨_, by unfold wallScan; rw [if_pos hw]⟩
      · obtain ⟨w', hw', hcol⟩ := h
        rcases List.mem_cons.mp hw' with rfl | hmem
        · exact absurd hcol hw
        · obtain ⟨p, hp⟩ := ih ⟨w', hmem, hcol⟩
          exact ⟨p, by unfold wallScan; rw [if_neg hw]; exact hp⟩

/-- The first waypoint is always the start point `(50, height/2)`. -/
theorem generateWaypoints_head (rng : Rng) (idx : ℕ) (width height : ℚ) :
    (generateWaypoints rng idx width height).1.head? =
      some { x := 50, y := height / 2 } := rfl

/-- The last waypoint is always the goal point, at `x = width - 50`. -/
theorem generateWaypoints_getLast (rng : Rng) (idx : ℕ) (width height : ℚ) :
    ∃ gy, (generateWaypoints rng idx width height).1.getLast? =
      some { x := width - 50, y := gy } := by
  apply Exists.intro
  unfold generateWaypoints
  dsimp only
  exact List.getLast?_concat _

/-- At least two waypoints (start and goal) are always generated. -/
theorem generateWaypoints_two_le_length (rng : Rng) (idx : ℕ) (width height : ℚ) :
    2 ≤ (generateWaypoints rng idx width height).1.length := by
  unfold generateWaypoints
  dsimp only
  simp only [List.length_cons, List.length_append, List.length_singleton]
  omega

/-- Generation sets the start position to the first waypoint and the goal
position to the last waypoint. -/
theorem generate_positions (lg : LevelGenerator) (rng : Rng) (msqrt : ℚ → ℚ)
    (idx : ℕ) :
    ∃ gy, (lg.generate rng msqrt idx).1.startPosition =
        some { x := 50, y := lg.height / 2 } ∧
      (lg.generate rng msqrt idx).1.goalPosition =
        some { x := lg.width - 50, y := gy } := by
  obtain ⟨gy, hlast⟩ := generateWaypoints_getLast rng idx lg.width lg.height
  refine ⟨gy, ?_, ?_⟩
  · unfold LevelGenerator.generate setStartAndGoalPositions
    dsimp only
    rw [if_pos (generateWaypoints_two_le_length rng idx lg.width lg.height)]
    exact generateWaypoints_head rng idx lg.width lg.height
  · unfold LevelGenerator.generate setStartAndGoalPositions
    dsimp only
    rw [if_pos (generateWaypoints_two_le_length rng idx lg.width lg.height)]
    exact hlast

/-- The generated wall list always ends with the four canvas boundary walls,
whatever the random source, the square root and the index. -/
theorem generate_walls_boundary (lg : LevelGenerator) (rng : Rng) (msqrt : ℚ → ℚ)
    (idx : ℕ) (w : Rect) (hmem : w ∈ boundaryWalls lg.width lg.height) :
    w ∈ (lg.generate rng msqrt idx).1.walls := by
  unfold LevelGenerator.generate setStartAndGoalPositions generateWalls
  dsimp only
  split
  · exact List.mem_append_right _ hmem
  · exact List.mem_append_right _ hmem

/-! ### Claim C1 -/

/-- C1: (code bug) On a boundary collision while playing the session does
transition to `gameover` and the frozen elapsed time (`currentTime`) is 5000,
but `handleGameOver` never writes the `score` field: it stays at its start
value 0, so `getCurrentScore()` read in the gameover state returns 0, not the
elapsed time at the collision — and it stays 0 under further ticks.  The claim
(and requirement 2.2's final-result display, which reads `getCurrentScore`)
expects 5000 here; contrast `handleGoalReached`, which does record the
score. -/
theorem C1_gameover_score_not_recorded :
    (gmWallHit.update 5000 16).state = .gameover ∧
    (gmWallHit.update 5000 16).currentTime = 5000 ∧
    (gmWallHit.update 5000 16).score = 0 ∧
    (gmWallHit.update 5000 16).getCurrentScore = 0 ∧
    ¬ (gmWallHit.update 5000 16).getCurrentScore = 5000 ∧
    (applyTicks [(6000, 16), (7000, 16)] (gmWallHit.update 5000 16)).getCurrentScore
      = 0 := by
  have hscore : (gmWallHit.update 5000 16).getCurrentScore = 0 := by
    with_unfolding_all rfl
  refine ⟨by with_unfolding_all rfl, by with_unfolding_all rfl,
    by with_unfolding_all rfl, hscore, ?_, by with_unfolding_all rfl⟩
  rw [hscore]
  norm_num

/-! ### Claim C2 -/

/-- C2: For each of the four difficulty tags, the level generator's corridor
(path) width and character speed exactly equal the fixed table — easy (100,2),
medium (60,3), hard (40,4), super-hard (30,6) — and (last conjunct) generation
never alters the stored settings, so any generated level reports the same
table values. -/
theorem C2_difficulty_table (width height : ℚ) :
    ((mkLevelGenerator width height ("easy")).map
        (fun lg => (lg.getPathWidth, lg.getCharacterSpeed)) = .ok (100, 2)) ∧
    ((mkLevelGenerator width height ("medium")).map
        (fun lg => (lg.getPathWidth, lg.getCharacterSpeed)) = .ok (60, 3)) ∧
    ((mkLevelGenerator width height ("hard")).map
        (fun lg => (lg.getPathWidth, lg.getCharacterSpeed)) = .ok (40, 4)) ∧
    ((mkLevelGenerator width height ("super-hard")).map
        (fun lg => (lg.getPathWidth, lg.getCharacterSpeed)) = .ok (30, 6)) ∧
    (∀ (lg : LevelGenerator) (rng : Rng) (msqrt : ℚ → ℚ) (idx : ℕ),
      (lg.generate rng msqrt idx).1.getPathWidth = lg.getPathWidth ∧
      (lg.generate rng msqrt idx).1.getCharacterSpeed = lg.getCharacterSpeed) := by
  refine ⟨rfl, rfl, rfl, rfl, fun lg rng msqrt idx => ?_⟩
  unfold LevelGenerator.generate setStartAndGoalPositions
  dsimp only
  split
  · exact ⟨rfl, rfl⟩
  · exact ⟨rfl, rfl⟩

/-! ### Claim C3 -/

/-- C3: For every direction `d` in the valid set and every prior heading (any
character state `c`), `setDirection d` followed by `update speed` displaces
the character by exactly `speed` along the axis of `d`, in the sign of `d`,
leaving the perpendicular coordinate unchanged; and with the heading unset,
`update speed` is a no-op. -/
theorem C3_heading_tick (c : Character) (speed : ℚ) :
    (c.direction = none → c.update speed = c) ∧
    (∀ d ∈ validDirections,
      ((c.setDirection d).update speed).x =
          c.x + (if d = "right" then speed else if d = "left" then -speed else 0) ∧
      ((c.setDirection d).update speed).y =
          c.y + (if d = "down" then speed else if d = "up" then -speed else 0)) := by
  constructor
  · intro h
    unfold Character.update
    rw [h]
  · intro d hd
    simp only [validDirections, List.mem_cons, List.not_mem_nil, or_false] at hd
    rcases hd with rfl | rfl | rfl | rfl
    all_goals
      simp [Character.setDirection, Character.update, validDirections]
    all_goals ring

/-- C3 witness: a concrete character heading right at speed 3 moves from
`(10, 20)` to `(13, 20)`, and with the heading unset a tick changes nothing. -/
theorem C3_heading_tick_witness :
    (((Character.init 10 20 5).setDirection ("right")).update 3).x = 13 ∧
    (((Character.init 10 20 5).setDirection ("right")).update 3).y = 20 ∧
    (Character.init 10 20 5).update 3 = Character.init 10 20 5 := by
  refine ⟨?_, ?_, ?_⟩
  · have h := (C3_heading_tick (Character.init 10 20 5) 3).2 ("right") (by decide)
    rw [h.1]
    simp [Character.init]
    norm_num
  · have h := (C3_heading_tick (Character.init 10 20 5) 3).2 ("right") (by decide)
    rw [h.2]
    simp [Character.init]
  · exact (C3_heading_tick (Character.init 10 20 5) 3).1 rfl

/-! ### Claim C4 -/

/-- C4 counterexample: the constructor's rejection test is
`!this.difficultySettings[difficulty]`, and JS bracket lookup consults the
prototype chain, so for the string `toString` — which is outside the closed
four-tag set — the inherited `Object.prototype.toString` function is found,
it is truthy, and the constructor completes WITHOUT an error, storing that
function as `settings`: a degenerate generator is exposed, refuting "fails
immediately with an error" for every string outside the set. -/
theorem C4_prototype_key_counterexample :
    levelGeneratorCtor ("toString") = .inheritedSettings ∧
    ¬ levelGeneratorCtor ("toString") = .throws ∧
    ("toString") ∉ (["easy", "medium", "hard", "super-hard"] : List String) := by
  decide

/-- C4 (amended): for every difficulty string outside the closed four-tag set
that is also not one of the property names inherited from
`Object.prototype`, construction fails immediately with the
`Invalid difficulty` error and no level object is produced (the `Except`
carries only the error: no waypoints, path, walls or start/goal state
exists).  For the inherited property names, by contrast, the truthiness check
passes and the constructor completes without error with the inherited member
stored as its settings. -/
theorem C4_invalid_difficulty_throws (width height : ℚ) (difficulty : String)
    (h : difficulty ∉ (["easy", "medium", "hard", "super-hard"] : List String))
    (hproto : difficulty ∉ objectPrototypeKeys) :
    levelGeneratorCtor difficulty = .throws ∧
    mkLevelGenerator width height difficulty =
      .error ("Invalid difficulty: " ++ difficulty) ∧
    (∀ d ∈ objectPrototypeKeys, levelGeneratorCtor d = .inheritedSettings) := by
  simp only [List.mem_cons, List.not_mem_nil, or_false, not_or] at h
  obtain ⟨h1, h2, h3, h4⟩ := h
  have hnone : difficultySettings difficulty = none := by
    unfold difficultySettings
    rw [if_neg h1, if_neg h2, if_neg h3, if_neg h4]
  refine ⟨?_, ?_, by decide⟩
  · unfold levelGeneratorCtor
    rw [hnone]
    exact if_neg hproto
  · unfold mkLevelGenerator
    rw [hnone]

/-- C4 witness: the concrete unrecognized tag `expert` (outside both the tag
set and the inherited names) is rejected with the error. -/
theorem C4_invalid_difficulty_throws_witness :
    levelGeneratorCtor ("expert") = .throws ∧
    mkLevelGenerator 800 600 ("expert") = .error ("Invalid difficulty: expert") :=
  ⟨(C4_invalid_difficulty_throws 800 600 ("expert") (by decide) (by decide)).1,
   (C4_invalid_difficulty_throws 800 600 ("expert") (by decide) (by decide)).2.1⟩

/-! ### Claim C7 -/

/-- C7 counterexample: `reset` with a point overwrites the stored initial
position, so a later argument-less `reset` returns to that point, NOT to the
original construction point: a character constructed at `(1, 2)`, reset to
`(3, 4)` and then reset with no argument sits at `(3, 4)`, not `(1, 2)`. -/
theorem C7_reset_counterexample :
    (((Character.init 1 2 10).reset (some { x := 3, y := 4 })).reset none).x = 3 ∧
    (((Character.init 1 2 10).reset (some { x := 3, y := 4 })).reset none).y = 4 ∧
    ¬ ((((Character.init 1 2 10).reset (some { x := 3, y := 4 })).reset none).x = 1 ∧
       (((Character.init 1 2 10).reset (some { x := 3, y := 4 })).reset none).y = 2) := by
  decide

/-! ### Claim C5 -/

/-- C5: In every state other than `playing` (menu, paused, gameover, victory)
any sequence of `update` calls is a total no-op: the whole session — state
tag, elapsed time, recorded score, character position — is unchanged, and in
particular in the `gameover` and `victory` states repeated ticks never change
the recorded score or the displayed elapsed time. -/
theorem C5_tick_outside_playing (gm : GameManager) (l : List (ℚ × ℚ))
    (h : gm.state ≠ .playing) :
    applyTicks l gm = gm ∧
    (applyTicks l gm).state = gm.state ∧
    (applyTicks l gm).currentTime = gm.currentTime ∧
    (applyTicks l gm).score = gm.score ∧
    (applyTicks l gm).character = gm.character ∧
    (applyTicks l gm).getCurrentScore = gm.getCurrentScore := by
  have key := applyTicks_of_ne_playing gm l h
  exact ⟨key, by rw [key], by rw [key], by rw [key], by rw [key], by rw [key]⟩

/-- C5 witness: two concrete ticks on a concrete menu-state session leave it
untouched. -/
theorem C5_tick_outside_playing_witness :
    applyTicks [(100, 16), (200, 16)] gmMenu = gmMenu ∧
    (applyTicks [(100, 16), (200, 16)] gmMenu).getCurrentScore =
      gmMenu.getCurrentScore :=
  ⟨(C5_tick_outside_playing gmMenu [(100, 16), (200, 16)] (by with_unfolding_all
      exact fun hcon => GState.noConfusion hcon)).1,
   (C5_tick_outside_playing gmMenu [(100, 16), (200, 16)] (by with_unfolding_all
      exact fun hcon => GState.noConfusion hcon)).2.2.2.2.2⟩

/-- C7 (amended): `reset (some p)` sets the position to `p` AND makes `p` the
new stored initial position; `reset none` sets the position to the currently
stored initial position (which is the construction point only as long as no
`reset` with a point has happened since construction); both variants clear
the heading. -/
theorem C7_reset_semantics (c : Character) (p : Point) :
    ((c.reset (some p)).x = p.x ∧ (c.reset (some p)).y = p.y ∧
     (c.reset (some p)).initialX = p.x ∧ (c.reset (some p)).initialY = p.y ∧
     (c.reset (some p)).direction = none) ∧
    ((c.reset none).x = c.initialX ∧ (c.reset none).y = c.initialY ∧
     (c.reset none).direction = none) :=
  ⟨⟨rfl, rfl, rfl, rfl, rfl⟩, ⟨rfl, rfl, rfl⟩⟩

/-! ### Claim C6 -/

/-- C6 counterexample: `startGame` while already playing is NOT equivalent to
`restartGame` followed by `startGame`: it keeps the existing level.  On the
concrete session built from `exampleRng` (whose levels are exact under
`ratSqrt`), start-while-playing leaves the 5-waypoint level in place, while
restart-then-start regenerates and — the next random value yielding 5 interior
waypoints — produces a 7-waypoint level, so the two resulting sessions
differ. -/
theorem C6_start_while_playing_counterexample :
    ((mkGameManager exampleRng ratSqrt 800 600 ("easy")).map (fun g =>
        let g1 := g.startGame 1000
        ((g1.startGame 2000).levelGenerator.waypoints.length,
         ((g1.restartGame exampleRng ratSqrt).startGame 2000).levelGenerator.waypoints.length)))
      = .ok (5, 7) ∧ (5 : ℕ) ≠ 7 :=
  ⟨by with_unfolding_all rfl, by norm_num⟩

/-- C6 (amended): calling `startGame` while already playing is not an error
and acts as an in-place restart of the run: the timer is re-based, elapsed
time and score return to zero, the character is reset to the CURRENT level's
start position with its heading cleared, and input is enabled — but the Level
is NOT regenerated: the session keeps the same level and the same random-call
index (unlike `restartGame` followed by `startGame`, which generates a fresh
level). -/
theorem C6_start_while_playing_in_place (gm : GameManager) (now : ℚ)
    (h : gm.state = .playing) :
    (gm.startGame now).state = .playing ∧
    (gm.startGame now).startTime = now ∧
    (gm.startGame now).currentTime = 0 ∧
    (gm.startGame now).score = 0 ∧
    (gm.startGame now).inputEnabled = true ∧
    (gm.startGame now).levelGenerator = gm.levelGenerator ∧
    (gm.startGame now).rngIdx = gm.rngIdx ∧
    (∀ p, gm.levelGenerator.startPosition = some p →
        (gm.startGame now).character = gm.character.reset (some p)) := by
  refine ⟨rfl, rfl, rfl, rfl, rfl, rfl, rfl, ?_⟩
  intro p hp
  simp only [GameManager.startGame, hp]

/-- C6 witness: on a concrete playing session, start-while-playing keeps the
level and zeroes the score. -/
theorem C6_start_while_playing_in_place_witness :
    (gmWallHit.startGame 2000).levelGenerator = gmWallHit.levelGenerator ∧
    (gmWallHit.startGame 2000).score = 0 :=
  ⟨(C6_start_while_playing_in_place gmWallHit 2000 rfl).2.2.2.2.2.1,
   (C6_start_while_playing_in_place gmWallHit 2000 rfl).2.2.2.1⟩

/-! ### Claim C8 -/

/-- C8 counterexample: the start waypoint is always at `x = 50` and the goal
waypoint at `x = width - 50`, so on a canvas of width 100 the generated start
and goal both sit exactly ON the midline `width / 2 = 50`: neither strictly
left nor strictly right of it.  (`rngC8` makes the whole run exact under
`ratSqrt`.) -/
theorem C8_start_goal_counterexample :
    ((mkLevelGenerator 100 600 ("easy")).map (fun lg0 =>
        let lg := (lg0.generate rngC8 ratSqrt 0).1
        (lg.startPosition, lg.goalPosition)))
      = .ok (some { x := 50, y := 300 }, some { x := 50, y := 360 }) ∧
    ¬ ((50 : ℚ) < 100 / 2) ∧ ¬ ((50 : ℚ) > 100 / 2) :=
  ⟨by with_unfolding_all rfl, by norm_num, by norm_num⟩

/-- C8 (amended): on every canvas of width strictly greater than 100, for
every outcome of the random source (and any square-root function), the
generated start position lies strictly left of the horizontal midline and the
goal position strictly right of it. -/
theorem C8_start_goal_halves (rng : Rng) (msqrt : ℚ → ℚ) (lg : LevelGenerator)
    (idx : ℕ) (h : 100 < lg.width) :
    ∃ s g, (lg.generate rng msqrt idx).1.startPosition = some s ∧
      (lg.generate rng msqrt idx).1.goalPosition = some g ∧
      s.x < lg.width / 2 ∧ g.x > lg.width / 2 := by
  obtain ⟨gy, hstart, hgoal⟩ := generate_positions lg rng msqrt idx
  refine ⟨_, _, hstart, hgoal, ?_, ?_⟩
  · show (50 : ℚ) < lg.width / 2
    linarith
  · show lg.width - 50 > lg.width / 2
    linarith

/-- C8 witness: a concrete level of width 800 generated from the constant
stream has its start strictly left and its goal strictly right of `x = 400`. -/
theorem C8_start_goal_halves_witness :
    (100 : ℚ) < lgExample.width ∧
    ∃ s g, (lgExample.generate halfRng ratSqrt 0).1.startPosition = some s ∧
      (lgExample.generate halfRng ratSqrt 0).1.goalPosition = some g ∧
      s.x < lgExample.width / 2 ∧ g.x > lgExample.width / 2 :=
  ⟨by norm_num [lgExample],
   C8_start_goal_halves halfRng ratSqrt lgExample 0 (by norm_num [lgExample])⟩

/-! ### Claim C9 -/

/-- C9 counterexample: even on the standard 800x600 canvas the generated
geometry does not all stay within the canvas: on the exact run produced by
`exampleRng`, the very first path-offset wall rectangle has `x = -8 < 0` (the
first path step points `(3,4)/5`-diagonally, so the left wall sits
`0.8 * 60 = 48` left of the start point at `x = 50`, minus half its 20-pixel
thickness), so the conjunction "all path points and all wall rectangles lie
within `[0,800] x [0,600]`" evaluates to `false`. -/
theorem C9_bounds_counterexample :
    ((mkLevelGenerator 800 600 ("easy")).map (fun lg0 =>
        let lg := (lg0.generate exampleRng ratSqrt 0).1
        lg.walls.all (fun w => rectInBoundsB 800 600 w) &&
        lg.path.all (fun p => pointInBoundsB 800 600 p)))
      = .ok false := by
  with_unfolding_all rfl

/-- C9 (amended): what does hold of the wall list for every outcome of the
random source: the four canvas-edge boundary rectangles are always among the
generated walls, and whenever the canvas is at least 50 wide and 50 tall they
lie within the canvas bounds.  Path-offset wall rectangles, by contrast, can
extend outside the canvas (see the counterexample). -/
theorem C9_boundary_fence_in_bounds (rng : Rng) (msqrt : ℚ → ℚ)
    (lg : LevelGenerator) (idx : ℕ) (hw : 50 ≤ lg.width) (hh : 50 ≤ lg.height) :
    ∀ w ∈ boundaryWalls lg.width lg.height,
      w ∈ (lg.generate rng msqrt idx).1.walls ∧
      rectInBoundsB lg.width lg.height w = true := by
  intro w hmem
  refine ⟨generate_walls_boundary lg rng msqrt idx w hmem, ?_⟩
  simp only [boundaryWalls, List.mem_cons, List.not_mem_nil, or_false] at hmem
  rcases hmem with rfl | rfl | rfl | rfl
  all_goals
    simp only [rectInBoundsB, Bool.and_eq_true, decide_eq_true_eq]
    refine ⟨⟨⟨?_, ?_⟩, ?_⟩, ?_⟩ <;> linarith

/-- C9 witness: on a concrete 800x600 level the top boundary wall is among
the generated walls and lies within the canvas. -/
theorem C9_boundary_fence_in_bounds_witness :
    { x := 0, y := 0, width := lgExample.width, height := (50 : ℚ) } ∈
      (lgExample.generate halfRng ratSqrt 0).1.walls ∧
    rectInBoundsB lgExample.width lgExample.height
      { x := 0, y := 0, width := lgExample.width, height := (50 : ℚ) } = true :=
  C9_boundary_fence_in_bounds halfRng ratSqrt lgExample 0
    (by norm_num [lgExample]) (by norm_num [lgExample])
    { x := 0, y := 0, width := lgExample.width, height := (50 : ℚ) }
    (List.Mem.head _)

/-! ### Claim C10 -/

/-- C10: Within a single playing tick (with no animation in flight), the wall
test runs on the post-move bounds before the goal test and short-circuits it:
if the moved character's bounds strictly overlap both some wall and the goal
hit box, the session ends in `gameover`, never `victory` (first conjunct).
And overlap is strict: two rectangles that exactly touch along an edge (zero
overlap area) do not collide (second conjunct). -/
theorem C10_wall_first_and_strict_touch :
    (∀ (gm : GameManager) (now deltaTime : ℚ),
       gm.state = .playing → gm.animating = false →
       (∃ w ∈ gm.collisionDetector.walls,
          boundingBoxCollision
            (gm.character.update gm.levelGenerator.getCharacterSpeed).getBounds w
              = true) →
       gm.collisionDetector.checkGoalCollision
           (gm.character.update gm.levelGenerator.getCharacterSpeed) = true →
       (gm.update now deltaTime).state = .gameover ∧
       ¬ (gm.update now deltaTime).state = .victory) ∧
    (∀ r1 r2 : Rect,
       (r1.x + r1.width = r2.x ∨ r2.x + r2.width = r1.x ∨
        r1.y + r1.height = r2.y ∨ r2.y + r2.height = r1.y) →
       boundingBoxCollision r1 r2 = false) := by
  constructor
  · intro gm now deltaTime hstate hanim hwall hgoal
    obtain ⟨p, hp⟩ := wallScan_isSome_of_overlap _ _ hwall
    have hfin : (gm.update now deltaTime).state = .gameover := by
      unfold GameManager.update
      rw [if_neg (by rw [hstate]; exact fun hcon => hcon rfl)]
      dsimp only
      rw [if_neg (by rw [hanim]; exact Bool.false_ne_true)]
      unfold CollisionDetector.checkWallCollision
      rw [hp]
      dsimp only
      rw [if_pos rfl]
      rfl
    exact ⟨hfin, by rw [hfin]; exact fun hcon => GState.noConfusion hcon⟩
  · intro r1 r2 h
    rw [Bool.eq_false_iff]
    intro hcol
    obtain ⟨h1, h2, h3, h4⟩ := (boundingBoxCollision_iff r1 r2).mp hcol
    rcases h with h | h | h | h <;> linarith

/-- C10 witness: on a concrete session whose character overlaps both the left
boundary wall and the goal hit box, the tick ends in gameover; and two
concrete rectangles sharing only an edge do not collide. -/
theorem C10_wall_first_and_strict_touch_witness :
    (gmBothHit.update 200 16).state = .gameover ∧
    boundingBoxCollision { x := 0, y := 0, width := 10, height := 10 }
      { x := 10, y := 0, width := 10, height := 10 } = false :=
  ⟨(C10_wall_first_and_strict_touch.1 gmBothHit 200 16 rfl rfl
      ⟨{ x := 0, y := 0, width := 50, height := 600 },
        by simp only [gmBothHit, boundaryWalls]
           exact List.Mem.tail _ (List.Mem.tail _ (List.Mem.head _)),
        by with_unfolding_all rfl⟩
      (by with_unfolding_all rfl)).1,
   C10_wall_first_and_strict_touch.2
     { x := 0, y := 0, width := 10, height := 10 }
     { x := 10, y := 0, width := 10, height := 10 }
     (Or.inl (by norm_num))⟩

end WireGame
